import Mathlib

/-!
Verification of the anatome.ai job-queue orchestration core.

This file shallowly embeds the job-orchestration service of the repository:
the Mongo job and queue records (`src/services/job-queue/src/models`), the
queue manager (`QueueManager`, Bull-backed), the scheduler housekeeping
(`JobScheduler`) and the HTTP route handlers for jobs, queues and the
scheduler.  Mutable Mongo collections and the Bull broker become explicit
state (`St`), wall-clock time is a `Nat` parameter (epoch milliseconds),
generated ids are parameters, and fallible paths return `Except`.
-/

namespace Anatome

/-- Job status values, from the `status` enum of the job schema
(`models/job.ts`). -/
inductive JobStatus
  | waiting
  | active
  | completed
  | failed
  | stalled
deriving DecidableEq, Repr

/-- Queue health values, from the `healthStatus` enum of the queue schema
(`models/queue.ts`). -/
inductive HealthStatus
  | healthy
  | warning
  | error
deriving DecidableEq, Repr

/-- The structured job payload (`data`, a Mongo `Mixed` value).  The queue
manager reads three properties of it (`data.id`, `data.userId`,
`data.priority` in `QueueManager.addJob`); the rest is opaque and modelled
by a single `rest` string.  `Option` models a JS property that may be
absent or `undefined`. -/
structure Payload where
  pid : Option String
  userId : Option String
  priority : Option Int
  rest : String
deriving DecidableEq, Repr

/-- A job record, from the Mongoose job schema (`models/job.ts`).
Timestamps are epoch milliseconds; `result` is opaque and modelled as a
string. -/
structure Job where
  jobId : String
  queue : String
  jobType : String
  data : Payload
  userId : Option String
  status : JobStatus
  priority : Int
  attempts : Nat
  maxAttempts : Nat
  delay : Nat
  result : Option String
  error : Option String
  processingTime : Option Nat
  createdAt : Nat
  startedAt : Option Nat
  completedAt : Option Nat
  failedAt : Option Nat
  stalledAt : Option Nat
deriving DecidableEq, Repr

/-- Per-queue configuration, from the `configuration` sub-document of the
queue schema (`models/queue.ts`). -/
structure QueueConfig where
  concurrency : Nat
  retryAttempts : Nat
  retryDelay : Nat
  removeOnComplete : Nat
  removeOnFail : Nat
deriving DecidableEq, Repr

/-- A queue descriptor record, from the Mongoose queue schema
(`models/queue.ts`).  `averageProcessingTime` is a JS number that can be
fractional, modelled as `ℚ`. -/
structure QueueDoc where
  name : String
  description : Option String
  isActive : Bool
  totalJobs : Nat
  completedJobs : Nat
  failedJobs : Nat
  activeJobs : Nat
  waitingJobs : Nat
  delayedJobs : Nat
  processingRate : Nat
  averageProcessingTime : ℚ
  lastProcessedAt : Option Nat
  configuration : QueueConfig
  healthStatus : HealthStatus
  lastHealthCheck : Nat
deriving DecidableEq, Repr

/-- Schema defaults for a freshly upserted queue document
(`models/queue.ts` field defaults). -/
def defaultQueueDoc (name : String) (now : Nat) : QueueDoc :=
  { name := name
    description := none
    isActive := true
    totalJobs := 0
    completedJobs := 0
    failedJobs := 0
    activeJobs := 0
    waitingJobs := 0
    delayedJobs := 0
    processingRate := 0
    averageProcessingTime := 0
    lastProcessedAt := none
    configuration :=
      { concurrency := 5, retryAttempts := 3, retryDelay := 2000
        removeOnComplete := 100, removeOnFail := 50 }
    healthStatus := .healthy
    lastHealthCheck := now }

/-- A Bull job as the broker sees it: the Bull job id and the named job
type it was added under (`queue.add(jobType, jobData, \x7bjobId\x7d)` in
`QueueManager.addJob`). -/
structure BullJob where
  id : String
  name : String
deriving DecidableEq, Repr

/-- Whole-system state: the `JobModel` Mongo collection, the `QueueModel`
Mongo collection, and the Bull broker contents keyed by queue name. -/
structure St where
  jobs : List Job
  queues : List QueueDoc
  broker : List (String × List BullJob)
deriving DecidableEq, Repr

/-- The fixed queue registry `QueueManager.QUEUES`. -/
def QUEUES : List String :=
  ["business-discovery", "instagram-detection", "video-scraping",
   "video-analysis", "report-generation", "file-processing", "cleanup",
   "notifications"]

/-- The global job-type registry `QueueManager.JOB_TYPES`. -/
def JOB_TYPES : List String :=
  ["discover-competitors", "discover-with-instagram", "validate-business",
   "detect-instagram-profiles", "analyze-reels", "validate-instagram-profile",
   "scrape-instagram-videos", "download-video", "upload-to-storage",
   "analyze-video-content", "extract-metadata", "generate-insights",
   "generate-competitor-report", "generate-trend-analysis", "export-pdf-report",
   "process-video-upload", "clean-temp-files", "backup-data",
   "send-notification", "health-check-services", "cleanup-expired-jobs"]

/-- The `(queue, type)` pairs for which `QueueManager.setupProcessors`
registers a processor. -/
def registeredProcessors : List (String × String) :=
  [("business-discovery", "discover-competitors"),
   ("business-discovery", "discover-with-instagram"),
   ("instagram-detection", "detect-instagram-profiles"),
   ("instagram-detection", "analyze-reels"),
   ("video-scraping", "scrape-instagram-videos"),
   ("video-scraping", "download-video"),
   ("video-analysis", "analyze-video-content"),
   ("video-analysis", "generate-insights"),
   ("report-generation", "generate-competitor-report"),
   ("cleanup", "cleanup-expired-jobs"),
   ("notifications", "send-notification")]

/-- Error outcomes of the embedded operations: the `AppError` codes thrown
by the route handlers, the `Error` thrown by `addJob` on a missing queue,
and the infrastructure failures (store/broker unavailable). -/
inductive Err
  | authRequired
  | validationError
  | invalidQueue
  | invalidJobType
  | forbidden
  | jobNotFound
  | queueNotFound
  | jobNotCancellable
  | jobNotRetryable
  | queueMissing
  | storeUnavailable
  | brokerUnavailable
deriving DecidableEq, Repr

/-- JS `x || d` on an optional number: `undefined` and `0` are falsy. -/
def jsOrNat (x : Option Nat) (d : Nat) : Nat :=
  match x with
  | none => d
  | some n => if n = 0 then d else n

/-- JS `x || d` on an optional integer: `undefined` and `0` are falsy. -/
def jsOrInt (x : Option Int) (d : Int) : Int :=
  match x with
  | none => d
  | some n => if n = 0 then d else n

/-! ## Health evaluation (claim C6)

`JobScheduler.performHealthChecks` (`services/scheduler.ts` lines 96-105)
computes a queue's health from its observed failed/completed counts by
sequential reassignment: start at `healthy`, move to `warning` when
`failed > 10 && failed > completed * 0.1`, then to `error` when
`failed > completed`.  The same logic appears in the `/health` route
(`routes/scheduler.ts` lines 240-248).  The JS comparison
`failed > completed * 0.1` is embedded exactly over `ℚ`. -/

/-- Health computation of `performHealthChecks`, embedded as the chain of
reassignments in the source. -/
def computeHealthStatus (failed completed : Nat) : HealthStatus :=
  let h : HealthStatus := .healthy
  let h := if failed > 10 ∧ (failed : ℚ) > (completed : ℚ) * (1 / 10) then
    .warning else h
  if failed > completed then .error else h

/-! ## State helpers -/

/-- Look up a queue's Bull contents (`this.queues.get(name)` holds a Bull
queue for every registry name after `initialize`). -/
def brokerJobs (broker : List (String × List BullJob)) (q : String) :
    List BullJob :=
  match broker.find? (fun e => e.1 = q) with
  | some e => e.2
  | none => []

/-- Whether the queue manager holds a Bull queue under this name. -/
def brokerHasQueue (broker : List (String × List BullJob)) (q : String) :
    Bool :=
  broker.any (fun e => e.1 = q)

/-- Append a Bull job to one queue's contents (`queue.add`). -/
def enqueueBull (broker : List (String × List BullJob)) (q : String)
    (bj : BullJob) : List (String × List BullJob) :=
  broker.map (fun e => if e.1 = q then (e.1, e.2 ++ [bj]) else e)

/-- Remove a Bull job id from every queue (`QueueManager.getJob` searches
all queues; `bullJob.remove()` deletes it where found). -/
def removeBull (broker : List (String × List BullJob)) (id : String) :
    List (String × List BullJob) :=
  broker.map (fun e => (e.1, e.2.filter (fun bj => bj.id ≠ id)))

/-- Whether any queue of the broker holds a Bull job with this id. -/
def brokerContains (broker : List (String × List BullJob)) (id : String) :
    Bool :=
  broker.any (fun e => e.2.any (fun bj => bj.id = id))

/-- `JobModel.findOne(\x7bjobId\x7d)`. -/
def findJob (jobs : List Job) (id : String) : Option Job :=
  jobs.find? (fun j => j.jobId = id)

/-- Patch every stored record with this `jobId` (a Mongoose
`doc.save()` after field mutation touches the one matching record). -/
def updateJob (jobs : List Job) (id : String) (f : Job → Job) : List Job :=
  jobs.map (fun j => if j.jobId = id then f j else j)

/-- `QueueModel.findOneAndUpdate(\x7bname\x7d, patch, \x7bupsert: true\x7d)`:
patch the matching descriptor, or insert a patched schema-default
document when none exists. -/
def upsertQueueDoc (qs : List QueueDoc) (name : String)
    (patch : QueueDoc → QueueDoc) (now : Nat) : List QueueDoc :=
  if qs.any (fun d => d.name = name) then
    qs.map (fun d => if d.name = name then patch d else d)
  else
    qs ++ [patch (defaultQueueDoc name now)]

/-! ## Submit (`QueueManager.addJob`, `jobRoutes POST /`) -/

/-- The Bull `JobOptions` fields the queue manager reads: `addJob` reads
`options?.attempts` and `options?.delay`; `priority` is forwarded to Bull
but never read when building the record. -/
structure JobOpts where
  attempts : Option Nat
  delay : Option Nat
  priority : Option Int
deriving DecidableEq, Repr

/-- The Mongo record built inside `QueueManager.addJob`
(`part_017` lines 501-525): id from `data.id || generateJobId()`,
priority from `data.priority || 0`, `maxAttempts` from
`options?.attempts || 3`, `delay` from `options?.delay || 0`, fresh
records start `waiting` with `attempts: 0`. -/
def mkJobDoc (queueName jobType : String) (data : Payload) (opts : JobOpts)
    (genId : String) (now : Nat) : Job :=
  { jobId := data.pid.getD genId
    queue := queueName
    jobType := jobType
    data := data
    userId := data.userId
    status := .waiting
    priority := jsOrInt data.priority 0
    attempts := 0
    maxAttempts := jsOrNat opts.attempts 3
    delay := jsOrNat opts.delay 0
    result := none
    error := none
    processingTime := none
    createdAt := now
    startedAt := none
    completedAt := none
    failedAt := none
    stalledAt := none }

/-- `QueueManager.addJob` (`part_017` lines 490-536): look up the Bull
queue, build the record, `jobDoc.save()` into Mongo, then `queue.add`
into Bull.  `storeOk`/`brokerOk` inject infrastructure availability at
the two I/O points; a JS exception propagates to the caller but leaves
already-performed writes in place, so the function returns the resulting
state alongside the outcome. -/
def addJob (s : St) (queueName jobType : String) (data : Payload)
    (opts : JobOpts) (genId : String) (now : Nat) (storeOk brokerOk : Bool) :
    St × Except Err Job :=
  if ¬ brokerHasQueue s.broker queueName then
    (s, .error .queueMissing)
  else
    let jobDoc := mkJobDoc queueName jobType data opts genId now
    if ¬ storeOk then
      (s, .error .storeUnavailable)
    else
      let s1 : St := { s with jobs := s.jobs ++ [jobDoc] }
      if ¬ brokerOk then
        (s1, .error .brokerUnavailable)
      else
        ({ s1 with
            broker := enqueueBull s1.broker queueName ⟨jobDoc.jobId, jobType⟩ },
          .ok jobDoc)

/-- `jobRoutes POST /` (`routes/scheduler.ts` lines 337-376): require a
user id, require `queue`/`type`/`data`, check `queue` against the queue
registry and `type` against the global job-type registry, merge the
caller identity into the payload, then call `addJob`. -/
def createJobRoute (s : St) (userId : Option String)
    (queue jobType : Option String) (data : Option Payload) (opts : JobOpts)
    (genId : String) (now : Nat) (storeOk brokerOk : Bool) :
    St × Except Err Job :=
  match userId with
  | none => (s, .error .authRequired)
  | some uid =>
    match queue, jobType, data with
    | some q, some t, some d =>
      if q ∉ QUEUES then (s, .error .invalidQueue)
      else if t ∉ JOB_TYPES then (s, .error .invalidJobType)
      else addJob s q t { d with userId := some uid } opts genId now
        storeOk brokerOk
    | _, _, _ => (s, .error .validationError)

/-! ## Cancel, bulk cancel, retry (`jobRoutes`) -/

/-- `jobRoutes DELETE /:jobId` (`routes/scheduler.ts` lines 505-548):
load the record, check ownership, refuse when the status is `completed`
or `failed`, otherwise remove the Bull job (where present) and write
`status = failed`, `error = "Cancelled by user"`, `failedAt = now`. -/
def cancelJobRoute (s : St) (userId : Option String) (isAdmin : Bool)
    (jobId : String) (now : Nat) : St × Except Err Unit :=
  match userId with
  | none => (s, .error .authRequired)
  | some uid =>
    match findJob s.jobs jobId with
    | none => (s, .error .jobNotFound)
    | some j =>
      if ¬ isAdmin ∧ j.userId ≠ some uid then (s, .error .forbidden)
      else if j.status = .completed ∨ j.status = .failed then
        (s, .error .jobNotCancellable)
      else
        ({ s with
            broker := removeBull s.broker jobId
            jobs := updateJob s.jobs jobId (fun jj =>
              { jj with
                  status := .failed
                  error := some "Cancelled by user"
                  failedAt := some now }) },
          .ok ())

/-- Per-job outcome reported by the bulk-cancel route. -/
inductive BulkOutcome
  | skipped
  | cancelled
deriving DecidableEq, Repr

/-- The per-job body of `jobRoutes POST /bulk/cancel`
(`routes/scheduler.ts` lines 667-701): a `completed`/`failed` job is
skipped unchanged; any other job is written
`status = failed, error = "Bulk cancelled by user", failedAt = now`. -/
def bulkCancelJob (j : Job) (now : Nat) : Job × BulkOutcome :=
  if j.status = .completed ∨ j.status = .failed then (j, .skipped)
  else
    ({ j with
        status := .failed
        error := some "Bulk cancelled by user"
        failedAt := some now },
      .cancelled)

/-- `jobRoutes POST /bulk/cancel` (`routes/scheduler.ts` lines 643-711):
select the requested ids (restricted to the caller's own jobs for
non-admins), then apply `bulkCancelJob` to each selected record, removing
cancelled ones from the broker. -/
def bulkCancelRoute (s : St) (userId : Option String) (isAdmin : Bool)
    (jobIds : List String) (now : Nat) :
    St × Except Err (List (String × BulkOutcome)) :=
  match userId with
  | none => (s, .error .authRequired)
  | some uid =>
    if jobIds = [] then (s, .error .validationError)
    else
      let selected := fun (j : Job) =>
        j.jobId ∈ jobIds ∧ (isAdmin ∨ j.userId = some uid)
      let results := (s.jobs.filter (fun j => selected j)).map
        (fun j => (j.jobId, (bulkCancelJob j now).2))
      let cancelledIds := (s.jobs.filter (fun j =>
        selected j ∧ (bulkCancelJob j now).2 = .cancelled)).map Job.jobId
      ({ s with
          jobs := s.jobs.map (fun j =>
            if selected j then (bulkCancelJob j now).1 else j)
          broker := cancelledIds.foldl removeBull s.broker },
        .ok results)

/-- The options object the retry route passes to `addJob`:
`\x7battempts: jobDoc.maxAttempts, priority: jobDoc.priority\x7d`. -/
def retryOpts (j : Job) : JobOpts :=
  { attempts := some j.maxAttempts, delay := none, priority := some j.priority }

/-- `jobRoutes POST /:jobId/retry` (`routes/scheduler.ts` lines 551-597):
load the record, check ownership, refuse unless `status = failed`, then
create a new job through `addJob` with the original `queue`, `type` and
`data` and options `\x7battempts: maxAttempts, priority\x7d`.  Nothing is
written to the original record. -/
def retryJobRoute (s : St) (userId : Option String) (isAdmin : Bool)
    (jobId : String) (genId : String) (now : Nat) : St × Except Err String :=
  match userId with
  | none => (s, .error .authRequired)
  | some uid =>
    match findJob s.jobs jobId with
    | none => (s, .error .jobNotFound)
    | some j =>
      if ¬ isAdmin ∧ j.userId ≠ some uid then (s, .error .forbidden)
      else if j.status ≠ .failed then (s, .error .jobNotRetryable)
      else
        let r := addJob s j.queue j.jobType j.data (retryOpts j) genId now
          true true
        match r.2 with
        | .ok nj => (r.1, .ok nj.jobId)
        | .error e => (r.1, .error e)

/-! ## Pause, resume and reservation (claim C1) -/

/-- `queueRoutes POST /:queueName/pause` (`part_019` lines 196-221): after
the admin and registry checks, upsert `\x7bisActive: false\x7d` into the
`QueueModel` collection.  The route's own comment records that Bull
pause/resume is not implemented; no Bull API is called. -/
def pauseQueueRoute (s : St) (isAdmin : Bool) (q : String) (now : Nat) :
    St × Except Err Unit :=
  if ¬ isAdmin then (s, .error .forbidden)
  else if q ∉ QUEUES then (s, .error .queueNotFound)
  else
    ({ s with
        queues := upsertQueueDoc s.queues q
          (fun d => { d with isActive := false }) now },
      .ok ())

/-- `queueRoutes POST /:queueName/resume` (`part_019` lines 223-246):
upsert `\x7bisActive: true\x7d`; again no Bull API is called. -/
def resumeQueueRoute (s : St) (isAdmin : Bool) (q : String) (now : Nat) :
    St × Except Err Unit :=
  if ¬ isAdmin then (s, .error .forbidden)
  else if q ∉ QUEUES then (s, .error .queueNotFound)
  else
    ({ s with
        queues := upsertQueueDoc s.queues q
          (fun d => { d with isActive := true }) now },
      .ok ())

/-- `QueueModel.findOne(\x7bname\x7d)`. -/
def findQueueDoc (qs : List QueueDoc) (name : String) : Option QueueDoc :=
  qs.find? (fun d => d.name = name)

/-- Modelled from the spec: the Broker's `Reserve` (§4.2) as realised by
the external Bull library, which is not part of the repository source.
`QueueManager.addProcessor` (`part_017` lines 173-198) registers
`queue.process(jobType, 5, handler)` for each pair in
`registeredProcessors`, after which Bull workers take the next job of a
registered type from the queue's contents.  No repository code calls
Bull's pause API or consults `QueueModel.isActive`, so the dispatch
predicate depends only on the broker contents and the registered
`(queue, type)` pairs. -/
def reserveNext (s : St) (q : String) : Option BullJob :=
  (brokerJobs s.broker q).find? (fun bj =>
    registeredProcessors.contains (q, bj.name))

/-! ## Stall sweep (`JobScheduler.processStalledJobs`, claim C3) -/

/-- The string written by the stall sweep when a job has exhausted its
attempts (`services/scheduler.ts` line 186). -/
def stalledErrorMsg : String :=
  "Job stalled and exceeded maximum retry attempts"

/-- The Mongo query of `processStalledJobs` (`services/scheduler.ts`
lines 173-178): `status = stalled` and `stalledAt` more than 30 minutes
old. -/
def stalledFilter (j : Job) (now : Nat) : Bool :=
  j.status == .stalled &&
    j.stalledAt.any (fun t => t < now - 30 * 60 * 1000)

/-- The per-job body of `processStalledJobs` (`services/scheduler.ts`
lines 183-194): at or beyond `maxAttempts` the job is failed with an
error and `failedAt`; below it the record goes back to `waiting` with
`attempts` incremented.  Only the Mongo record is saved. -/
def sweepStalledJob (j : Job) (now : Nat) : Job :=
  if j.attempts ≥ j.maxAttempts then
    { j with
        status := .failed
        error := some stalledErrorMsg
        failedAt := some now }
  else
    { j with status := .waiting, attempts := j.attempts + 1 }

/-- `JobScheduler.processStalledJobs` (`services/scheduler.ts` lines
171-203): sweep every record matching `stalledFilter`.  The broker and
the queue descriptors are untouched — the sweep performs no `queue.add`. -/
def processStalledJobs (s : St) (now : Nat) : St :=
  { s with
      jobs := s.jobs.map (fun j =>
        if stalledFilter j now then sweepStalledJob j now else j) }

/-! ## Queue cleaning (`queueRoutes POST /:queueName/clean`, claim C9) -/

/-- The Mongo deletion filter built by the clean route (`part_019` lines
263-275): queue match, `createdAt` before the cutoff, and a status
constraint only for the three recognized `status` arguments. -/
def cleanFilterMatches (q statusArg : String) (cutoff : Nat) (j : Job) :
    Bool :=
  j.queue = q ∧ j.createdAt < cutoff ∧
    (if statusArg = "completed" then j.status = .completed
     else if statusArg = "failed" then j.status = .failed
     else if statusArg = "all" then
       j.status = .completed ∨ j.status = .failed
     else true)

/-- `queueRoutes POST /:queueName/clean` (`part_019` lines 249-287):
after the admin and registry checks, `deleteMany` with
`cleanFilterMatches` where `cutoff = now - olderThan`.  Returns the
remaining collection and the deleted count. -/
def cleanQueueRoute (s : St) (isAdmin : Bool) (q statusArg : String)
    (olderThan now : Nat) : St × Except Err Nat :=
  if ¬ isAdmin then (s, .error .forbidden)
  else if q ∉ QUEUES then (s, .error .queueNotFound)
  else
    let cutoff := now - olderThan
    let deleted := s.jobs.filter (fun j => cleanFilterMatches q statusArg cutoff j)
    ({ s with
        jobs := s.jobs.filter (fun j => ¬ cleanFilterMatches q statusArg cutoff j) },
      .ok deleted.length)

/-! ## Metrics refresh (`JobScheduler.updateQueueStatistics`, claim C7) -/

/-- The Mongo query of `updateQueueStatistics` (`services/scheduler.ts`
lines 138-144): the queue's `completed` jobs whose `completedAt` is
within the last hour. -/
def completedLastHour (jobs : List Job) (q : String) (now : Nat) :
    List Job :=
  jobs.filter (fun j =>
    j.queue == q && j.status == .completed &&
      j.completedAt.any (fun t => t ≥ now - 60 * 60 * 1000))

/-- `const processingRate = recentJobs.length; // jobs per hour`
(`services/scheduler.ts` line 146): the raw count of completions over
the hour. -/
def processingRateFor (jobs : List Job) (q : String) (now : Nat) : Nat :=
  (completedLastHour jobs q now).length

/-- `averageProcessingTime` (`services/scheduler.ts` lines 147-149): the
mean of `processingTime || 0` over the recent completions, 0 when there
are none. -/
def averageProcessingTimeFor (jobs : List Job) (q : String) (now : Nat) :
    ℚ :=
  let recent := completedLastHour jobs q now
  if recent.length > 0 then
    ((recent.map (fun j => ((j.processingTime.getD 0 : Nat) : ℚ))).sum) /
      (recent.length : ℚ)
  else 0

/-- `lastProcessed` (`services/scheduler.ts` lines 151-153): the
greatest `completedAt` among the recent completions (the source sorts
descending and takes the head), absent when there are none. -/
def lastProcessedFor (jobs : List Job) (q : String) (now : Nat) :
    Option Nat :=
  let recent := completedLastHour jobs q now
  if recent.length > 0 then
    some ((recent.filterMap Job.completedAt).foldl max 0)
  else none

/-- The per-queue aggregate triple written by `updateQueueStatistics`
into the queue descriptor (`services/scheduler.ts` lines 156-164). -/
def updateQueueStatsFor (jobs : List Job) (q : String) (now : Nat) :
    Nat × ℚ × Option Nat :=
  (processingRateFor jobs q now, averageProcessingTimeFor jobs q now,
    lastProcessedFor jobs q now)

/-- The per-minute completion rate over the last hour, as the queue
schema documents the `processingRate` field ("jobs per minute",
`models/queue.ts` line 13) and as §4.5 of the specification states it. -/
def specRatePerMin (jobs : List Job) (q : String) (now : Nat) : ℚ :=
  ((completedLastHour jobs q now).length : ℚ) / 60

/-! ## Whether any stored record mentions a given id

Used to settle the retry-linkage question: the job schema
(`models/job.ts`) has no `retried_as` field, so a link from the original
record to the retried one could only live in one of the string-valued
fields below. -/

/-- `true` iff some string-valued field of the record (or of its payload)
equals the given id. -/
def mentionsId (j : Job) (i : String) : Bool :=
  j.jobId == i || j.queue == i || j.jobType == i || j.userId == some i ||
    j.result == some i || j.error == some i || j.data.pid == some i ||
    j.data.userId == some i || j.data.rest == i

/-! ## Concrete instances used by the closed theorems -/

/-- A sample opaque payload. -/
def examplePayload : Payload :=
  { pid := none, userId := some "u1", priority := none, rest := "r" }

/-- Empty options (`options` omitted at the call site). -/
def emptyOpts : JobOpts :=
  { attempts := none, delay := none, priority := none }

/-- A freshly initialized system: no Mongo records, one empty Bull queue
per registry name (`QueueManager.initialize`). -/
def initBrokerSt : St :=
  { jobs := [], queues := [], broker := QUEUES.map (fun q => (q, [])) }

/-- A state for the pause experiment: the `notifications` descriptor
exists and one `send-notification` Bull job is ready. -/
def c1State : St :=
  { jobs := []
    queues := [defaultQueueDoc "notifications" 0]
    broker := [("notifications", [⟨"j1", "send-notification"⟩])] }

/-- A job currently `active` (being processed), owned by `u1`. -/
def exActiveJob : Job :=
  { jobId := "a1", queue := "video-analysis", jobType := "analyze-video-content"
    data := examplePayload, userId := some "u1", status := .active
    priority := 0, attempts := 1, maxAttempts := 3, delay := 0
    result := none, error := none, processingTime := none, createdAt := 10
    startedAt := some 20, completedAt := none, failedAt := none
    stalledAt := none }

/-- State holding the active job, which is also in flight in Bull. -/
def c2State : St :=
  { jobs := [exActiveJob]
    queues := []
    broker := [("video-analysis", [⟨"a1", "analyze-video-content"⟩])] }

/-- A job that stalled long ago with attempts still below the cap. -/
def exStalledJob : Job :=
  { jobId := "s1", queue := "video-scraping", jobType := "download-video"
    data := examplePayload, userId := some "u1", status := .stalled
    priority := 0, attempts := 1, maxAttempts := 3, delay := 0
    result := none, error := none, processingTime := none, createdAt := 5
    startedAt := some 6, completedAt := none, failedAt := none
    stalledAt := some 0 }

/-- State holding the stalled job; its Bull queue is empty (Bull dropped
the in-flight entry when the job stalled). -/
def c3State : St :=
  { jobs := [exStalledJob]
    queues := []
    broker := [("video-scraping", [])] }

/-- A failed job eligible for retry, owned by `u1`. -/
def c4FailedJob : Job :=
  { jobId := "old-1", queue := "notifications", jobType := "send-notification"
    data := examplePayload, userId := some "u1", status := .failed
    priority := 0, attempts := 3, maxAttempts := 3, delay := 0
    result := none, error := some "boom", processingTime := none
    createdAt := 10, startedAt := some 11, completedAt := none
    failedAt := some 12, stalledAt := none }

/-- State holding the failed job. -/
def c4State : St :=
  { jobs := [c4FailedJob]
    queues := []
    broker := [("notifications", [])] }

/-- A non-terminal (`active`) job in the `cleanup` queue, created well
before the cleaning cutoff. -/
def c9ActiveJob : Job :=
  { jobId := "w1", queue := "cleanup", jobType := "cleanup-expired-jobs"
    data := examplePayload, userId := some "u1", status := .active
    priority := 0, attempts := 1, maxAttempts := 3, delay := 0
    result := none, error := none, processingTime := none, createdAt := 10
    startedAt := some 15, completedAt := none, failedAt := none
    stalledAt := none }

/-- State holding the pre-cutoff active job. -/
def c9State : St :=
  { jobs := [c9ActiveJob], queues := [], broker := [("cleanup", [])] }

/-- One of sixty jobs completed within the last hour before
`now = 10000000`, each with a 100 ms processing time. -/
def c7CompletedJob (i : Nat) : Job :=
  { jobId := "c7-" ++ toString i, queue := "notifications"
    jobType := "send-notification", data := examplePayload
    userId := some "u1", status := .completed, priority := 0, attempts := 1
    maxAttempts := 3, delay := 0, result := some "ok", error := none
    processingTime := some 100, createdAt := 6000000
    startedAt := some 6000001, completedAt := some (6400000 + i * 1000)
    failedAt := none, stalledAt := none }

/-- Sixty completions inside the observation hour. -/
def c7Jobs : List Job := (List.range 60).map c7CompletedJob

/-! # Theorems -/

/-- The JS comparison `failed > completed * 0.1`, read exactly over `ℚ`,
is the integer comparison `10 * failed > completed`. -/
theorem ratTenth_iff (f c : Nat) :
    ((f : ℚ) > (c : ℚ) * (1 / 10)) ↔ 10 * f > c := by
  rw [gt_iff_lt, gt_iff_lt]
  constructor
  · intro h
    have h2 : ((c : Nat) : ℚ) < ((10 * f : Nat) : ℚ) := by push_cast; linarith
    exact_mod_cast h2
  · intro h
    have h2 : ((c : Nat) : ℚ) < ((10 * f : Nat) : ℚ) := by exact_mod_cast h
    push_cast at h2
    linarith

/-- C6: for every queue's observed counts, the health evaluation of
`JobScheduler.performHealthChecks` yields `error` exactly when
`failed > completed`, otherwise `warning` exactly when `failed > 10` and
`failed > 0.1 × completed` (as integers, `10 · failed > completed`), and
`healthy` otherwise. -/
theorem c6_health_evaluation (f c : Nat) :
    (computeHealthStatus f c = .error ↔ f > c) ∧
    (computeHealthStatus f c = .warning ↔ f ≤ c ∧ f > 10 ∧ 10 * f > c) ∧
    (computeHealthStatus f c = .healthy ↔ f ≤ c ∧ ¬ (f > 10 ∧ 10 * f > c)) := by
  have key := ratTenth_iff f c
  have hval : computeHealthStatus f c =
      if f > c then .error
      else if f > 10 ∧ (f : ℚ) > (c : ℚ) * (1 / 10) then .warning
      else .healthy := rfl
  rw [hval]
  by_cases hgt : f > c
  · rw [if_pos hgt]
    refine ⟨by simp [hgt], ?_, ?_⟩
    · constructor
      · intro h
        exact absurd h (by decide)
      · intro h
        exact absurd hgt (not_lt.mpr h.1)
    · constructor
      · intro h
        exact absurd h (by decide)
      · intro h
        exact absurd hgt (not_lt.mpr h.1)
  · rw [if_neg hgt]
    by_cases hw : f > 10 ∧ (f : ℚ) > (c : ℚ) * (1 / 10)
    · rw [if_pos hw]
      refine ⟨?_, ?_, ?_⟩
      · constructor
        · intro h
          exact absurd h (by decide)
        · intro h
          exact absurd h hgt
      · exact ⟨fun _ => ⟨by omega, hw.1, key.mp hw.2⟩, fun _ => rfl⟩
      · constructor
        · intro h
          exact absurd h (by decide)
        · intro h
          exact absurd ⟨hw.1, key.mp hw.2⟩ h.2
    · rw [if_neg hw]
      refine ⟨?_, ?_, ?_⟩
      · constructor
        · intro h
          exact absurd h (by decide)
        · intro h
          exact absurd h hgt
      · constructor
        · intro h
          exact absurd h (by decide)
        · intro h
          exact absurd ⟨h.2.1, key.mpr h.2.2⟩ hw
      · exact ⟨fun _ => ⟨by omega, fun hc => hw ⟨hc.1, key.mpr hc.2⟩⟩,
          fun _ => rfl⟩

/-- Witness for C6 at concrete counts: 5 failed vs 3 completed is
`error`; 12 failed vs 200 completed is `healthy` (12 ≤ 200 and
120 ≤ 200 fails the warning threshold... 120 ≤ 200 means no warning). -/
theorem c6_health_evaluation_witness :
    computeHealthStatus 5 3 = .error ∧ computeHealthStatus 12 200 = .healthy :=
  ⟨(c6_health_evaluation 5 3).1.mpr (by norm_num),
   (c6_health_evaluation 12 200).2.2.mpr (by norm_num)⟩

/-- C10: every record built by `QueueManager.addJob` starts `waiting`
with `attempts = 0`; `maxAttempts` is `options.attempts` when that value
is truthy and 3 otherwise — in particular `options.attempts = 0` yields
3 — and with the store available the record is appended to the Job
collection verbatim. -/
theorem c10_submit_record_defaults (q t : String) (d : Payload)
    (opts : JobOpts) (gid : String) (now : Nat) :
    (mkJobDoc q t d opts gid now).status = .waiting ∧
    (mkJobDoc q t d opts gid now).attempts = 0 ∧
    (opts.attempts = some 0 → (mkJobDoc q t d opts gid now).maxAttempts = 3) ∧
    (opts.attempts = none → (mkJobDoc q t d opts gid now).maxAttempts = 3) ∧
    (∀ n, opts.attempts = some n → n ≠ 0 →
      (mkJobDoc q t d opts gid now).maxAttempts = n) ∧
    (∀ s ok2, brokerHasQueue s.broker q = true →
      (addJob s q t d opts gid now true ok2).1.jobs =
        s.jobs ++ [mkJobDoc q t d opts gid now]) := by
  refine ⟨rfl, rfl, ?_, ?_, ?_, ?_⟩
  · intro h
    simp [mkJobDoc, jsOrNat, h]
  · intro h
    simp [mkJobDoc, jsOrNat, h]
  · intro n h hn
    simp [mkJobDoc, jsOrNat, h, hn]
  · intro s ok2 hb
    unfold addJob
    simp only [hb, not_true_eq_false, if_false, Bool.not_eq_true]
    cases ok2 <;> simp

/-- Witness for C10: submitting with `options.attempts = 0` yields
`maxAttempts = 3`, status `waiting`, `attempts = 0`. -/
theorem c10_submit_record_defaults_witness :
    (mkJobDoc "notifications" "send-notification" examplePayload
      { attempts := some 0, delay := none, priority := none }
      "g1" 5).maxAttempts = 3 ∧
    (mkJobDoc "notifications" "send-notification" examplePayload
      { attempts := some 0, delay := none, priority := none }
      "g1" 5).status = .waiting ∧
    (mkJobDoc "notifications" "send-notification" examplePayload
      { attempts := some 0, delay := none, priority := none }
      "g1" 5).attempts = 0 :=
  ⟨(c10_submit_record_defaults "notifications" "send-notification"
      examplePayload _ "g1" 5).2.2.1 rfl,
   (c10_submit_record_defaults "notifications" "send-notification"
      examplePayload _ "g1" 5).1,
   (c10_submit_record_defaults "notifications" "send-notification"
      examplePayload _ "g1" 5).2.1⟩

/-- C9: when the `status` argument of the clean route is none of
`completed`, `failed`, `all`, the deletion filter carries no status
constraint: every job of the queue created before the cutoff matches and
is deleted, whatever its status; and the three recognized values
restrict the filter to the corresponding terminal statuses. -/
theorem c9_clean_unrecognized_status (s : St) (q statusArg : String)
    (olderThan now : Nat) (j : Job) (hq : q ∈ QUEUES)
    (hs : statusArg ≠ "completed" ∧ statusArg ≠ "failed" ∧ statusArg ≠ "all") :
    (j.queue = q → j.createdAt < now - olderThan →
      cleanFilterMatches q statusArg (now - olderThan) j = true ∧
      j ∉ (cleanQueueRoute s true q statusArg olderThan now).1.jobs) ∧
    (∀ cutoff,
      (cleanFilterMatches q "completed" cutoff j = true → j.status = .completed) ∧
      (cleanFilterMatches q "failed" cutoff j = true → j.status = .failed) ∧
      (cleanFilterMatches q "all" cutoff j = true →
        j.status = .completed ∨ j.status = .failed)) := by
  constructor
  · intro hqj hcr
    have hmatch : cleanFilterMatches q statusArg (now - olderThan) j = true := by
      simp [cleanFilterMatches, hqj, hcr, hs.1, hs.2.1, hs.2.2]
    refine ⟨hmatch, ?_⟩
    intro hmem
    have hroute : (cleanQueueRoute s true q statusArg olderThan now).1.jobs =
        s.jobs.filter (fun k =>
          ¬ cleanFilterMatches q statusArg (now - olderThan) k) := by
      simp [cleanQueueRoute, hq]
    rw [hroute] at hmem
    rw [List.mem_filter] at hmem
    simp only [hmatch] at hmem
    exact absurd hmem.2 (by simp)
  · intro cutoff
    refine ⟨?_, ?_, ?_⟩
    · intro h
      simp [cleanFilterMatches] at h
      exact h.2.2
    · intro h
      simp [cleanFilterMatches] at h
      exact h.2.2
    · intro h
      simp [cleanFilterMatches] at h
      exact h.2.2

/-- Witness for C9: cleaning the `cleanup` queue with the unrecognized
status argument `waiting` deletes a pre-cutoff job whose status is
`active` — a non-terminal job. -/
theorem c9_clean_unrecognized_status_witness :
    c9ActiveJob.status = .active ∧
    cleanFilterMatches "cleanup" "waiting" (1000 - 100) c9ActiveJob = true ∧
    c9ActiveJob ∉ (cleanQueueRoute c9State true "cleanup" "waiting" 100 1000).1.jobs :=
  ⟨rfl,
   ((c9_clean_unrecognized_status c9State "cleanup" "waiting" 100 1000
      c9ActiveJob (by decide) (by decide)).1 rfl (by decide)).1,
   ((c9_clean_unrecognized_status c9State "cleanup" "waiting" 100 1000
      c9ActiveJob (by decide) (by decide)).1 rfl (by decide)).2⟩

/-- `QueueManager.addJob` never produces the validation error
`INVALID_JOB_TYPE`: that check lives only in the route layer. -/
theorem addJob_no_validation (s : St) (q t : String) (d : Payload)
    (opts : JobOpts) (gid : String) (now : Nat) (ok1 ok2 : Bool) :
    (addJob s q t d opts gid now ok1 ok2).2 ≠ .error .invalidJobType := by
  unfold addJob
  split_ifs <;> simp

/-- C5 counterexample: submitting `type = send-notification` on the
`cleanup` queue — a pair with no registered processor — passes the
route's validation (the type is merely checked against the global
`JOB_TYPES` registry) and creates a job record, instead of failing with
`INVALID_JOB_TYPE`. -/
theorem c5_counterexample :
    ("cleanup", "send-notification") ∉ registeredProcessors ∧
    (createJobRoute initBrokerSt (some "u1") (some "cleanup")
        (some "send-notification") (some examplePayload) emptyOpts "g5" 77
        true true).2 =
      .ok (mkJobDoc "cleanup" "send-notification"
        { examplePayload with userId := some "u1" } emptyOpts "g5" 77) ∧
    findJob (createJobRoute initBrokerSt (some "u1") (some "cleanup")
        (some "send-notification") (some examplePayload) emptyOpts "g5" 77
        true true).1.jobs "g5" =
      some (mkJobDoc "cleanup" "send-notification"
        { examplePayload with userId := some "u1" } emptyOpts "g5" 77) := by
  refine ⟨by decide, rfl, rfl⟩

/-- C5 amended: `POST /` fails with `INVALID_JOB_TYPE` exactly when the
type is absent from the global `JOB_TYPES` registry; a globally known
type submitted against a queue where it is not registered passes
validation and a job record is created. -/
theorem c5_amended (s : St) (uid q t : String) (d : Payload) (opts : JobOpts)
    (gid : String) (now : Nat) (ok1 ok2 : Bool) (hq : q ∈ QUEUES) :
    ((createJobRoute s (some uid) (some q) (some t) (some d) opts gid now
        ok1 ok2).2 = .error .invalidJobType ↔ t ∉ JOB_TYPES) ∧
    (t ∈ JOB_TYPES → brokerHasQueue s.broker q = true →
      (createJobRoute s (some uid) (some q) (some t) (some d) opts gid now
          true true).2 =
        .ok (mkJobDoc q t { d with userId := some uid } opts gid now) ∧
      (mkJobDoc q t { d with userId := some uid } opts gid now) ∈
        (createJobRoute s (some uid) (some q) (some t) (some d) opts gid now
          true true).1.jobs) := by
  constructor
  · simp only [createJobRoute]
    rw [if_neg (not_not_intro hq)]
    by_cases ht : t ∈ JOB_TYPES
    · rw [if_neg (not_not_intro ht)]
      exact iff_of_false (addJob_no_validation s q t
        { d with userId := some uid } opts gid now ok1 ok2)
        (not_not_intro ht)
    · rw [if_pos ht]
      exact iff_of_true rfl ht
  · intro ht hb
    simp only [createJobRoute]
    rw [if_neg (not_not_intro hq), if_neg (not_not_intro ht)]
    unfold addJob
    rw [if_neg (not_not_intro hb)]
    refine ⟨rfl, ?_⟩
    simp

/-- Witness for the amended C5: a type outside the global registry is
rejected with `INVALID_JOB_TYPE`. -/
theorem c5_amended_witness :
    (createJobRoute initBrokerSt (some "u1") (some "cleanup") (some "zzz")
        (some examplePayload) emptyOpts "g5b" 8 true true).2 =
      .error .invalidJobType :=
  (c5_amended initBrokerSt "u1" "cleanup" "zzz" examplePayload emptyOpts
    "g5b" 8 true true (by decide)).1.mpr (by decide)

/-- C8 counterexample: with the store available but the broker failing,
`addJob` raises `BROKER_UNAVAILABLE` to the caller, yet the job record it
already saved persists in the Store in status `waiting` while the job is
in no broker set — Submit is not atomic. -/
theorem c8_counterexample :
    (addJob initBrokerSt "notifications" "send-notification" examplePayload
        emptyOpts "g8" 42 true false).2 = .error .brokerUnavailable ∧
    findJob (addJob initBrokerSt "notifications" "send-notification"
        examplePayload emptyOpts "g8" 42 true false).1.jobs "g8" =
      some (mkJobDoc "notifications" "send-notification" examplePayload
        emptyOpts "g8" 42) ∧
    (mkJobDoc "notifications" "send-notification" examplePayload
        emptyOpts "g8" 42).status = .waiting ∧
    brokerContains (addJob initBrokerSt "notifications" "send-notification"
        examplePayload emptyOpts "g8" 42 true false).1.broker "g8" = false := by
  refine ⟨rfl, rfl, rfl, by decide⟩

/-- C8 amended: an infrastructure error during Submit surfaces
synchronously; a Store failure leaves no record, but a Broker failure
after the Store write leaves a `waiting` job record in the Store that is
never enqueued.  Only the both-available run stores and enqueues the
job. -/
theorem c8_amended (s : St) (q t : String) (d : Payload) (opts : JobOpts)
    (gid : String) (now : Nat) (hq : brokerHasQueue s.broker q = true) :
    (∀ ok2, addJob s q t d opts gid now false ok2 =
      (s, .error .storeUnavailable)) ∧
    ((addJob s q t d opts gid now true false).2 = .error .brokerUnavailable ∧
      (addJob s q t d opts gid now true false).1.jobs =
        s.jobs ++ [mkJobDoc q t d opts gid now] ∧
      (addJob s q t d opts gid now true false).1.broker = s.broker) ∧
    ((addJob s q t d opts gid now true true).2 =
        .ok (mkJobDoc q t d opts gid now) ∧
      (addJob s q t d opts gid now true true).1.jobs =
        s.jobs ++ [mkJobDoc q t d opts gid now] ∧
      (addJob s q t d opts gid now true true).1.broker =
        enqueueBull s.broker q ⟨(mkJobDoc q t d opts gid now).jobId, t⟩) := by
  refine ⟨?_, ?_, ?_⟩
  · intro ok2
    unfold addJob
    rw [if_neg (not_not_intro hq)]
    rfl
  · unfold addJob
    rw [if_neg (not_not_intro hq)]
    exact ⟨rfl, rfl, rfl⟩
  · unfold addJob
    rw [if_neg (not_not_intro hq)]
    exact ⟨rfl, rfl, rfl⟩

/-- Witness for the amended C8: on the fresh system a Store outage
surfaces `STORE_UNAVAILABLE` and leaves the state untouched. -/
theorem c8_amended_witness :
    addJob initBrokerSt "notifications" "send-notification" examplePayload
        emptyOpts "g8w" 42 false true =
      (initBrokerSt, .error .storeUnavailable) :=
  (c8_amended initBrokerSt "notifications" "send-notification"
    examplePayload emptyOpts "g8w" 42 (by decide)).1 true

/-- C3 counterexample: the stall sweep moves a stalled job with
remaining attempts back to `waiting` (incrementing `attempts`), but it
performs no re-enqueue: the broker is untouched and holds no entry for
the job, so it is not "re-enqueued with backoff". -/
theorem c3_counterexample :
    exStalledJob.status = .stalled ∧
    exStalledJob.attempts < exStalledJob.maxAttempts ∧
    (processStalledJobs c3State 10000000).jobs =
      [{ exStalledJob with status := .waiting, attempts := 2 }] ∧
    (processStalledJobs c3State 10000000).broker = c3State.broker ∧
    brokerContains (processStalledJobs c3State 10000000).broker "s1" = false := by
  exact ⟨rfl, by decide, rfl, rfl, by decide⟩

/-- C3 amended: on every stall sweep, for every stalled job processed —
if its `attempts < maxAttempts` its status is set to `waiting` with
`attempts` incremented but it is *not* re-enqueued (the sweep never
touches the broker and applies no backoff); otherwise its status is set
to `failed` with `failedAt` recorded and a non-empty stall error. -/
theorem c3_amended (s : St) (now : Nat) (j : Job) :
    (processStalledJobs s now).broker = s.broker ∧
    (processStalledJobs s now).queues = s.queues ∧
    (j.attempts < j.maxAttempts →
      sweepStalledJob j now =
        { j with status := .waiting, attempts := j.attempts + 1 }) ∧
    (j.attempts ≥ j.maxAttempts →
      sweepStalledJob j now =
        { j with status := .failed, error := some stalledErrorMsg,
                 failedAt := some now }) ∧
    stalledErrorMsg ≠ "" := by
  refine ⟨rfl, rfl, ?_, ?_, by decide⟩
  · intro h
    unfold sweepStalledJob
    rw [if_neg (not_le.mpr h)]
  · intro h
    unfold sweepStalledJob
    rw [if_pos h]

/-- Witness for the amended C3: the sweep sends the concrete stalled job
(1 of 3 attempts used) back to `waiting` with `attempts = 2`. -/
theorem c3_amended_witness :
    sweepStalledJob exStalledJob 999 =
      { exStalledJob with status := .waiting, attempts := 2 } :=
  (c3_amended c3State 999 exStalledJob).2.2.1 (by decide)

/-- Patching the matching descriptors of a list and then looking the
name up yields the patch's `isActive` whenever a match exists. -/
theorem find?_map_patch_isActive (l : List QueueDoc) (name : String)
    (b : Bool) :
    ((l.map (fun d => if d.name = name then { d with isActive := b } else d)).find?
        (fun d => d.name = name)).map QueueDoc.isActive =
      (l.find? (fun d => d.name = name)).map (fun _ => b) := by
  induction l with
  | nil => rfl
  | cons a l ih =>
    by_cases ha : a.name = name
    · simp [ha]
    · simp only [List.map_cons, if_neg ha]
      rw [List.find?_cons_of_neg _ (by simpa using ha),
        List.find?_cons_of_neg _ (by simpa using ha)]
      exact ih

/-- After upserting `isActive := b` for a queue name, looking that name
up yields a descriptor whose `isActive` is `b`. -/
theorem findQueueDoc_upsert_isActive (qs : List QueueDoc) (name : String)
    (b : Bool) (now : Nat) :
    (findQueueDoc (upsertQueueDoc qs name
        (fun d => { d with isActive := b }) now) name).map QueueDoc.isActive =
      some b := by
  unfold upsertQueueDoc findQueueDoc
  by_cases hex : qs.any (fun d => d.name = name)
  · rw [if_pos hex, find?_map_patch_isActive]
    have hsome : (qs.find? (fun d => d.name = name)).isSome := by
      rw [List.find?_isSome]
      simpa [List.any_eq_true] using hex
    obtain ⟨e, he⟩ := Option.isSome_iff_exists.mp hsome
    rw [he]
    rfl
  · rw [if_neg hex, List.find?_append]
    have hnone : qs.find? (fun d => d.name = name) = none := by
      rw [List.find?_eq_none]
      intro x hx hpx
      exact hex (List.any_eq_true.mpr ⟨x, hx, hpx⟩)
    rw [hnone]
    simp [defaultQueueDoc]

/-- C1 counterexample: pausing the `notifications` queue only flips the
descriptor's `isActive` flag; the ready Bull job is still present and
the worker dispatch still reserves it, so reservation is not skipped
while `is_active = false`. -/
theorem c1_counterexample :
    (pauseQueueRoute c1State true "notifications" 50).2 = .ok () ∧
    (findQueueDoc (pauseQueueRoute c1State true "notifications" 50).1.queues
      "notifications").map QueueDoc.isActive = some false ∧
    brokerJobs (pauseQueueRoute c1State true "notifications" 50).1.broker
      "notifications" = [⟨"j1", "send-notification"⟩] ∧
    reserveNext (pauseQueueRoute c1State true "notifications" 50).1
      "notifications" = some ⟨"j1", "send-notification"⟩ := by
  exact ⟨rfl, rfl, rfl, by decide⟩

/-- C1 amended: the pause route sets the descriptor's `is_active` flag
to `false` (and resume back to `true`), but touches neither the Job
collection nor the broker, and the reservation outcome of every queue is
unchanged — workers do not consult the flag, so processing continues
while a queue is paused. -/
theorem c1_amended (s : St) (q : String) (now : Nat) (hq : q ∈ QUEUES) :
    (pauseQueueRoute s true q now).2 = .ok () ∧
    (pauseQueueRoute s true q now).1.broker = s.broker ∧
    (pauseQueueRoute s true q now).1.jobs = s.jobs ∧
    (∀ q2, reserveNext (pauseQueueRoute s true q now).1 q2 =
      reserveNext s q2) ∧
    (findQueueDoc (pauseQueueRoute s true q now).1.queues q).map
      QueueDoc.isActive = some false ∧
    (findQueueDoc (resumeQueueRoute s true q now).1.queues q).map
      QueueDoc.isActive = some true := by
  have hp2 : (pauseQueueRoute s true q now).2 = .ok () := by
    unfold pauseQueueRoute
    rw [if_neg (by simp), if_neg (not_not_intro hq)]
  have hpq : (pauseQueueRoute s true q now).1.queues =
      upsertQueueDoc s.queues q (fun d => { d with isActive := false }) now := by
    unfold pauseQueueRoute
    rw [if_neg (by simp), if_neg (not_not_intro hq)]
  have hpb : (pauseQueueRoute s true q now).1.broker = s.broker := by
    unfold pauseQueueRoute
    rw [if_neg (by simp), if_neg (not_not_intro hq)]
  have hpj : (pauseQueueRoute s true q now).1.jobs = s.jobs := by
    unfold pauseQueueRoute
    rw [if_neg (by simp), if_neg (not_not_intro hq)]
  have hrq : (resumeQueueRoute s true q now).1.queues =
      upsertQueueDoc s.queues q (fun d => { d with isActive := true }) now := by
    unfold resumeQueueRoute
    rw [if_neg (by simp), if_neg (not_not_intro hq)]
  refine ⟨hp2, hpb, hpj, ?_, ?_, ?_⟩
  · intro q2
    unfold reserveNext
    rw [hpb]
  · rw [hpq]
    exact findQueueDoc_upsert_isActive s.queues q false now
  · rw [hrq]
    exact findQueueDoc_upsert_isActive s.queues q true now

/-- Witness for the amended C1 on the concrete paused state. -/
theorem c1_amended_witness :
    (pauseQueueRoute c1State true "notifications" 60).1.broker =
      c1State.broker ∧
    (findQueueDoc (pauseQueueRoute c1State true "notifications" 60).1.queues
      "notifications").map QueueDoc.isActive = some false :=
  ⟨(c1_amended c1State "notifications" 60 (by decide)).2.1,
   (c1_amended c1State "notifications" 60 (by decide)).2.2.2.2.1⟩

/-- After `removeBull`, no queue of the broker holds the removed id. -/
theorem brokerContains_removeBull (b : List (String × List BullJob))
    (id : String) :
    brokerContains (removeBull b id) id = false := by
  unfold brokerContains removeBull
  rw [List.any_map, List.any_eq_false]
  intro e he
  simp only [Function.comp]
  rw [Bool.not_eq_true, List.any_eq_false]
  intro bj hbj
  rw [List.mem_filter] at hbj
  simpa using hbj.2

/-- Looking a job up after patching it: the patched record is returned
when the patch preserves the id. -/
theorem findJob_updateJob (jobs : List Job) (id : String) (f : Job → Job)
    (hf : ∀ x, (f x).jobId = x.jobId) (j : Job)
    (h : findJob jobs id = some j) :
    findJob (updateJob jobs id f) id = some (f j) := by
  unfold findJob updateJob at *
  induction jobs with
  | nil => simp at h
  | cons a l ih =>
    by_cases ha : a.jobId = id
    · rw [List.find?_cons_of_pos _ (by simpa using ha)] at h
      cases h
      simp only [List.map_cons, if_pos ha]
      rw [List.find?_cons_of_pos _ (by simp [hf, ha])]
    · rw [List.find?_cons_of_neg _ (by simpa using ha)] at h
      simp only [List.map_cons, if_neg ha]
      rw [List.find?_cons_of_neg _ (by simpa using ha)]
      exact ih h

/-- C2 counterexample: cancelling a job that is `active` is not refused:
the route accepts it, removes the broker entry and writes
`status = failed, error = "Cancelled by user"`. -/
theorem c2_counterexample :
    exActiveJob.status = .active ∧
    (cancelJobRoute c2State (some "u1") false "a1" 99).2 = .ok () ∧
    findJob (cancelJobRoute c2State (some "u1") false "a1" 99).1.jobs "a1" =
      some { exActiveJob with
             status := .failed
             error := some "Cancelled by user"
             failedAt := some 99 } ∧
    brokerContains (cancelJobRoute c2State (some "u1") false "a1" 99).1.broker
      "a1" = false := by
  exact ⟨rfl, rfl, rfl, by decide⟩

/-- C2 amended: cancellation refuses exactly the terminal statuses
(`completed`, `failed`) with `JOB_NOT_CANCELLABLE`; every other job —
`waiting`, delayed, `active` or `stalled` — is removed from the broker
and written `status = failed`, `error = "Cancelled by user"`
(`"Bulk cancelled by user"` for bulk cancel, which skips terminal jobs
and cancels all others). -/
theorem c2_amended (s : St) (uid : String) (admin : Bool) (jid : String)
    (now : Nat) (j : Job) (hfind : findJob s.jobs jid = some j)
    (hauth : admin = true ∨ j.userId = some uid) :
    ((j.status = .completed ∨ j.status = .failed) →
      cancelJobRoute s (some uid) admin jid now =
        (s, .error .jobNotCancellable)) ∧
    (¬ (j.status = .completed ∨ j.status = .failed) →
      (cancelJobRoute s (some uid) admin jid now).2 = .ok () ∧
      findJob (cancelJobRoute s (some uid) admin jid now).1.jobs jid =
        some { j with
               status := .failed
               error := some "Cancelled by user"
               failedAt := some now } ∧
      brokerContains (cancelJobRoute s (some uid) admin jid now).1.broker jid
        = false) ∧
    (∀ k, (k.status = .completed ∨ k.status = .failed) →
      bulkCancelJob k now = (k, .skipped)) ∧
    (∀ k, ¬ (k.status = .completed ∨ k.status = .failed) →
      bulkCancelJob k now =
        ({ k with
           status := .failed
           error := some "Bulk cancelled by user"
           failedAt := some now }, .cancelled)) := by
  have hauth' : ¬ (¬ admin = true ∧ j.userId ≠ some uid) := by
    rcases hauth with h | h
    · intro hc
      exact hc.1 h
    · intro hc
      exact hc.2 h
  refine ⟨?_, ?_, ?_, ?_⟩
  · intro hterm
    simp only [cancelJobRoute, hfind]
    rw [if_neg hauth', if_pos hterm]
  · intro hterm
    simp only [cancelJobRoute, hfind]
    rw [if_neg hauth', if_neg hterm]
    refine ⟨rfl, ?_, ?_⟩
    · exact findJob_updateJob s.jobs jid
        (fun jj => { jj with
                     status := .failed
                     error := some "Cancelled by user"
                     failedAt := some now })
        (fun x => rfl) j hfind
    · exact brokerContains_removeBull s.broker jid
  · intro k hk
    unfold bulkCancelJob
    rw [if_pos hk]
  · intro k hk
    unfold bulkCancelJob
    rw [if_neg hk]

/-- Witness for the amended C2: the concrete `active` job is cancelled,
not refused. -/
theorem c2_amended_witness :
    (cancelJobRoute c2State (some "u1") false "a1" 99).2 = .ok () :=
  ((c2_amended c2State "u1" false "a1" 99 exActiveJob rfl
    (Or.inr rfl)).2.1 (by decide)).1

/-- Looking a job up in an extended collection finds the original
record first. -/
theorem findJob_append_of_found (l1 l2 : List Job) (id : String) (j : Job)
    (h : findJob l1 id = some j) :
    findJob (l1 ++ l2) id = some j := by
  unfold findJob at *
  rw [List.find?_append, h]
  rfl

/-- C4 counterexample: retrying the concrete failed job creates the new
record and reports both ids, but the original record is bit-for-bit
unchanged and no stored record other than the new one mentions the fresh
id — the job schema has no `retried_as` field and the route writes
nothing to the original, so no `retried_as` link exists. -/
theorem c4_counterexample :
    c4FailedJob.status = .failed ∧
    (retryJobRoute c4State (some "u1") false "old-1" "new-9" 500).2 =
      .ok "new-9" ∧
    findJob (retryJobRoute c4State (some "u1") false "old-1" "new-9"
      500).1.jobs "old-1" = some c4FailedJob ∧
    findJob (retryJobRoute c4State (some "u1") false "old-1" "new-9"
      500).1.jobs "new-9" =
      some (mkJobDoc "notifications" "send-notification" examplePayload
        (retryOpts c4FailedJob) "new-9" 500) ∧
    ((retryJobRoute c4State (some "u1") false "old-1" "new-9"
      500).1.jobs.filter (fun j => j.jobId ≠ "new-9")).all
      (fun j => ! mentionsId j "new-9") = true := by
  exact ⟨rfl, rfl, rfl, rfl, by decide⟩

/-- C4 amended: Retry succeeds only from `failed` (anything else yields
`JOB_NOT_RETRYABLE`); on success it appends a new record cloning
`queue`, `type` and `payload` — with `maxAttempts` preserved when
non-zero, `priority` recomputed from the payload (which equals the
original's when it was created through `addJob`), and a fresh id when
the payload carries none — and leaves the original record unchanged
without writing any `retried_as` link. -/
theorem c4_amended (s : St) (uid jid gid : String) (now : Nat) (j : Job)
    (hfind : findJob s.jobs jid = some j)
    (hbull : brokerHasQueue s.broker j.queue = true) :
    (j.status ≠ .failed →
      retryJobRoute s (some uid) true jid gid now =
        (s, .error .jobNotRetryable)) ∧
    (j.status = .failed →
      (retryJobRoute s (some uid) true jid gid now).2 =
        .ok (mkJobDoc j.queue j.jobType j.data (retryOpts j) gid now).jobId ∧
      (retryJobRoute s (some uid) true jid gid now).1.jobs =
        s.jobs ++ [mkJobDoc j.queue j.jobType j.data (retryOpts j) gid now] ∧
      findJob (retryJobRoute s (some uid) true jid gid now).1.jobs jid =
        some j) ∧
    (mkJobDoc j.queue j.jobType j.data (retryOpts j) gid now).queue =
      j.queue ∧
    (mkJobDoc j.queue j.jobType j.data (retryOpts j) gid now).jobType =
      j.jobType ∧
    (mkJobDoc j.queue j.jobType j.data (retryOpts j) gid now).data =
      j.data ∧
    (j.maxAttempts ≠ 0 →
      (mkJobDoc j.queue j.jobType j.data (retryOpts j) gid now).maxAttempts =
        j.maxAttempts) ∧
    (j.priority = jsOrInt j.data.priority 0 →
      (mkJobDoc j.queue j.jobType j.data (retryOpts j) gid now).priority =
        j.priority) ∧
    (j.data.pid = none →
      (mkJobDoc j.queue j.jobType j.data (retryOpts j) gid now).jobId =
        gid) := by
  refine ⟨?_, ?_, rfl, rfl, rfl, ?_, ?_, ?_⟩
  · intro hns
    simp only [retryJobRoute, hfind]
    rw [if_neg (by simp), if_pos hns]
  · intro hs
    simp only [retryJobRoute, hfind]
    rw [if_neg (by simp), if_neg (not_not_intro hs)]
    unfold addJob
    rw [if_neg (not_not_intro hbull)]
    exact ⟨rfl, rfl, findJob_append_of_found s.jobs _ jid j hfind⟩
  · intro hma
    simp [mkJobDoc, retryOpts, jsOrNat, hma]
  · intro hpri
    simpa [mkJobDoc, retryOpts] using hpri.symm
  · intro hpid
    simp [mkJobDoc, retryOpts, hpid]

/-- Witness for the amended C4: the concrete failed job retries to a
fresh id while the original record is found unchanged. -/
theorem c4_amended_witness :
    (retryJobRoute c4State (some "u1") true "old-1" "new-9w" 500).2 =
      .ok "new-9w" ∧
    findJob (retryJobRoute c4State (some "u1") true "old-1" "new-9w"
      500).1.jobs "old-1" = some c4FailedJob :=
  ⟨((c4_amended c4State "u1" "old-1" "new-9w" 500 c4FailedJob rfl
      (by decide)).2.1 rfl).1,
   ((c4_amended c4State "u1" "old-1" "new-9w" 500 c4FailedJob rfl
      (by decide)).2.1 rfl).2.2⟩

set_option maxRecDepth 100000

/-- C7: with 60 jobs completed in the last hour, the metrics refresh
stores `processingRate = 60` — the raw hourly count — into the field the
queue schema documents as "jobs per minute", whereas the per-minute rate
over that hour is 1; the average processing time and last-processed
aggregates agree with the claim. -/
theorem c7_code_bug :
    (updateQueueStatsFor c7Jobs "notifications" 10000000).1 = 60 ∧
    specRatePerMin c7Jobs "notifications" 10000000 = 1 ∧
    ((updateQueueStatsFor c7Jobs "notifications" 10000000).1 : ℚ) ≠
      specRatePerMin c7Jobs "notifications" 10000000 ∧
    (updateQueueStatsFor c7Jobs "notifications" 10000000).2.1 = 100 ∧
    (updateQueueStatsFor c7Jobs "notifications" 10000000).2.2 =
      some 6459000 := by
  have hrecent : completedLastHour c7Jobs "notifications" 10000000 =
      c7Jobs := by rfl
  have hlen : c7Jobs.length = 60 := by rfl
  have hrate : (updateQueueStatsFor c7Jobs "notifications" 10000000).1 =
      60 := by rfl
  have hmap : c7Jobs.map (fun j => ((j.processingTime.getD 0 : Nat) : ℚ)) =
      List.replicate 60 ((100 : Nat) : ℚ) := by
    rw [List.eq_replicate_iff]
    refine ⟨by rw [List.length_map, hlen], ?_⟩
    intro b hb
    rw [List.mem_map] at hb
    obtain ⟨j, hj, hbj⟩ := hb
    have hj2 : j ∈ (List.range 60).map c7CompletedJob := hj
    rw [List.mem_map] at hj2
    obtain ⟨i, _, hji⟩ := hj2
    rw [← hbj, ← hji]
    rfl
  have hspec : specRatePerMin c7Jobs "notifications" 10000000 = 1 := by
    unfold specRatePerMin
    rw [hrecent, hlen]
    norm_num
  have havg : (updateQueueStatsFor c7Jobs "notifications" 10000000).2.1 =
      100 := by
    show averageProcessingTimeFor c7Jobs "notifications" 10000000 = 100
    unfold averageProcessingTimeFor
    simp only [hrecent, hlen, hmap]
    rw [if_pos (by norm_num), List.sum_replicate]
    push_cast
    norm_num
  refine ⟨hrate, hspec, ?_, havg, by rfl⟩
  rw [hrate, hspec]
  norm_num

end Anatome
